import Mathlib

/-!
Formal model of the Craftopia backend (YvetteNyibuka/craftopia-bn).

The definitions below are shallow embeddings of the TypeScript sources:
  - src/utils (generateSlug, getPagination, response helpers)
  - src/models/Decor.ts and the Category model (schema hooks)
  - src/controllers/decorController.ts, userController.ts, authController.ts
  - src/middlewares/auth.ts (authenticate, login status flow)
  - src/utils/auth.ts and src/config (token issuing and expiry strings)

JavaScript numbers are modelled as rationals, MongoDB object ids as naturals,
document collections as association lists, and the JWT library as a symbolic
record carrying payload, signing secret and expiry timestamp; verification
succeeds exactly when the secrets agree and the token is not expired.
-/

namespace Craftopia

/-! ## Roles and statuses (src/types/index.ts) -/

inductive Role where
  | user
  | admin
  | superAdmin
deriving DecidableEq, Repr

inductive DecorStatus where
  | active
  | inactive
  | outOfStock
  | discontinued
deriving DecidableEq, Repr

/-! ## Slug generation (src/utils, generateSlug)

The JavaScript source is
  text.toLowerCase().trim()
    .replace(re1, "")   -- re1 matches a character outside word chars, whitespace, hyphen
    .replace(re2, "-")  -- re2 matches a nonempty run of whitespace, underscore, hyphen
    .replace(re3, "")   -- re3 matches a leading or trailing run of hyphens
Each global regex replacement is embedded as a total function on character
lists.  toLowerCase is modelled on the basic-latin range, which is the only
range the word-character class retains anyway. -/

/-- Word character of the regex class: ascii letter, digit or underscore. -/
def isWordChar (c : Char) : Bool :=
  c.isAlpha || c.isDigit || c = '_'

/-- Separator characters of the second regex: whitespace, underscore, hyphen. -/
def isSepChar (c : Char) : Bool :=
  c.isWhitespace || c = '_' || c = '-'

/-- JavaScript String.prototype.trim: drop whitespace at both ends. -/
def jsTrim (l : List Char) : List Char :=
  ((l.dropWhile Char.isWhitespace).reverse.dropWhile Char.isWhitespace).reverse

/-- First replacement: delete every character that is not a word character,
whitespace or hyphen. -/
def removeSpecial (l : List Char) : List Char :=
  l.filter (fun c => isWordChar c || c.isWhitespace || c = '-')

/-- Second replacement: each maximal run of separator characters becomes a
single hyphen. -/
def collapseSeps : List Char → List Char
  | [] => []
  | c :: rest =>
    if isSepChar c then '-' :: collapseSeps (rest.dropWhile isSepChar)
    else c :: collapseSeps rest
termination_by l => l.length
decreasing_by
  · exact Nat.lt_succ_of_le ((List.dropWhile_suffix _).sublist.length_le)
  · exact Nat.lt_succ_of_le (Nat.le_refl _)

/-- Third replacement: drop hyphens at both ends. -/
def trimHyphens (l : List Char) : List Char :=
  ((l.dropWhile (fun c => c = '-')).reverse.dropWhile (fun c => c = '-')).reverse

/-- generateSlug from src/utils. -/
def generateSlug (s : String) : String :=
  ⟨trimHyphens (collapseSeps (removeSpecial (jsTrim (s.data.map Char.toLower))))⟩

/-! ## Prices

The schema setter for price is Math.round(val * 100) / 100; the setter for
originalPrice applies the same rounding to truthy values and keeps falsy
values (0) unchanged.  Math.round x = floor (x + 1/2) = round in Mathlib. -/

def priceSet (v : ℚ) : ℚ := (round (v * 100) : ℤ) / 100

def origPriceSet (v : ℚ) : ℚ := if v = 0 then v else priceSet v

/-! ## Documents -/

/-- Decor document (src/models/Decor.ts schema). -/
structure DecorDoc where
  name : String
  slug : String
  description : String
  category : Nat
  price : ℚ
  originalPrice : Option ℚ
  stock : Nat
  status : DecorStatus
  featured : Bool
  images : List String
  tags : List String
  materials : List String
  ratingAverage : ℚ
  ratingCount : Nat
  views : Nat
  salesCount : Nat
  createdBy : Nat
deriving DecidableEq, Repr

/-- Category document (the Category model schema). -/
structure CategoryDoc where
  name : String
  slug : String
  description : String
  isActive : Bool
  decorCount : Int
  createdBy : Nat
deriving DecidableEq, Repr

/-- User document (src/types IUser, the fields the claims touch). -/
structure UserDoc where
  firstName : String
  lastName : String
  email : String
  password : String
  role : Role
  isActive : Bool
deriving DecidableEq, Repr

/-! ## Association-list collections (documents keyed by object id) -/

def findById {α : Type} (l : List (Nat × α)) (id : Nat) : Option α :=
  (l.find? (fun p => p.1 = id)).map (fun p => p.2)

def updateById {α : Type} (l : List (Nat × α)) (id : Nat) (f : α → α) :
    List (Nat × α) :=
  l.map (fun p => if p.1 = id then (p.1, f p.2) else p)

def deleteById {α : Type} (l : List (Nat × α)) (id : Nat) : List (Nat × α) :=
  l.filter (fun p => p.1 ≠ id)

/-! ## Decor schema hooks (src/models/Decor.ts)

The pre-save hook runs in source order: slug when the name path is modified,
the stock-driven status transition when the stock path is modified, then the
originalPrice clearing.  The post-save hook (decorPostSave keeps its body)
tests isModified("category") and isNew, but Mongoose resets the modified
paths and clears isNew before post save middleware runs, so every call site
of a save passes the two flags as false: the observed values are always
false and the increment never executes.  The decrement hook is registered
for document-level deleteOne with query middleware disabled, so it is a
separate definition and the delete endpoint, which removes through
findByIdAndDelete (a query operation), never invokes it. -/

/-- First block of the pre-save hook: regenerate the slug when the name path
is modified. -/
def slugStep (d : DecorDoc) (nameModified : Bool) : DecorDoc :=
  if nameModified then { d with slug := generateSlug d.name } else d

/-- Second block of the pre-save hook: when the stock path is modified, a
stock of 0 forces out_of_stock unless the status is discontinued, and a
positive stock flips out_of_stock back to active. -/
def stockStatusStep (d : DecorDoc) (stockModified : Bool) : DecorDoc :=
  if stockModified then
    if d.stock = 0 ∧ d.status ≠ DecorStatus.discontinued then
      { d with status := DecorStatus.outOfStock }
    else if 0 < d.stock ∧ d.status = DecorStatus.outOfStock then
      { d with status := DecorStatus.active }
    else d
  else d

/-- Third block of the pre-save hook: a truthy originalPrice that the price
reaches or exceeds is cleared. -/
def origPriceStep (d : DecorDoc) : DecorDoc :=
  match d.originalPrice with
  | some op => if op ≠ 0 ∧ op ≤ d.price then { d with originalPrice := none } else d
  | none => d

def decorPreSave (d : DecorDoc) (nameModified stockModified : Bool) : DecorDoc :=
  origPriceStep (stockStatusStep (slugStep d nameModified) stockModified)

def decorPostSave (cats : List (Nat × CategoryDoc)) (d : DecorDoc)
    (categoryModified isNew : Bool) : List (Nat × CategoryDoc) :=
  if categoryModified || isNew then
    updateById cats d.category (fun c => { c with decorCount := c.decorCount + 1 })
  else cats

def decorPostDeleteOne (cats : List (Nat × CategoryDoc)) (d : DecorDoc) :
    List (Nat × CategoryDoc) :=
  updateById cats d.category (fun c => { c with decorCount := c.decorCount - 1 })

/-- Category pre-save hook: regenerate the slug when the name is modified. -/
def categoryPreSave (c : CategoryDoc) (nameModified : Bool) : CategoryDoc :=
  if nameModified then { c with slug := generateSlug c.name } else c

/-! ## Decor controllers (src/controllers/decorController.ts) -/

structure DecorState where
  decors : List (Nat × DecorDoc)
  categories : List (Nat × CategoryDoc)
deriving DecidableEq, Repr

structure DecorOpResult where
  status : Nat
  state : DecorState
deriving DecidableEq, Repr

/-- Body for createDecor, after upload and JSON parsing. -/
structure CreateDecorBody where
  name : String
  description : String
  category : Nat
  price : ℚ
  originalPrice : Option ℚ
  stock : Nat
  featured : Bool
  images : List String
  tags : List String
  materials : List String
  createdBy : Nat
deriving Repr

/-- createDecor: verify the category exists, build the document with the
schema setters and defaults, save (pre-save hook with every path modified,
the document being new), then the post-save hook runs: by then the save has
already reset the modification flags and cleared isNew, so the hook
observes false for both and the category count is not incremented. -/
def createDecor (s : DecorState) (newId : Nat) (b : CreateDecorBody) : DecorOpResult :=
  match findById s.categories b.category with
  | none => ⟨400, s⟩
  | some _ =>
    let d : DecorDoc :=
      { name := b.name
        slug := ""
        description := b.description
        category := b.category
        price := priceSet b.price
        originalPrice := b.originalPrice.map origPriceSet
        stock := b.stock
        status := DecorStatus.active
        featured := b.featured
        images := b.images
        tags := b.tags
        materials := b.materials
        ratingAverage := 0
        ratingCount := 0
        views := 0
        salesCount := 0
        createdBy := b.createdBy }
    let d1 := decorPreSave d true true
    ⟨201, ⟨s.decors ++ [(newId, d1)], decorPostSave s.categories d1 false false⟩⟩

/-- deleteDecor: look the decor up, then remove it through findByIdAndDelete.
findByIdAndDelete is query-level, and the decrement hook is registered with
query middleware disabled, so no category count changes. -/
def deleteDecor (s : DecorState) (id : Nat) : DecorOpResult :=
  match findById s.decors id with
  | none => ⟨404, s⟩
  | some _ => ⟨200, ⟨deleteById s.decors id, s.categories⟩⟩

/-- The category-change slice of updateDecor: set the category reference and
save.  The post-save hook runs after the save has reset the modification
flags, so it observes isModified("category") and isNew both false and the
new owning category count is not incremented. -/
def updateDecorCategory (s : DecorState) (id newCat : Nat) : DecorOpResult :=
  match findById s.decors id with
  | none => ⟨404, s⟩
  | some d =>
    match findById s.categories newCat with
    | none => ⟨400, s⟩
    | some _ =>
      let d1 := { d with category := newCat }
      let d2 := decorPreSave d1 false false
      ⟨200, ⟨updateById s.decors id (fun _ => d2),
             decorPostSave s.categories d2 false false⟩⟩

/-- Document transformation performed by updateStock on the found decor:
set the stock, flip the status in the controller (out_of_stock whenever the
new stock is 0, regardless of the current status; back to active when stock
is positive and the status was out_of_stock), then run the pre-save hook
with the stock path modified. -/
def stockCtrlStep (d : DecorDoc) (stock : Nat) : DecorDoc :=
  let d1 := { d with stock := stock }
  if stock = 0 then { d1 with status := DecorStatus.outOfStock }
  else if d1.status = DecorStatus.outOfStock then { d1 with status := DecorStatus.active }
  else d1

def updateStockDoc (d : DecorDoc) (stock : Nat) : DecorDoc :=
  decorPreSave (stockCtrlStep d stock) false true

/-- updateStock (patch-stock endpoint): transform the found decor and save;
the post-save hook fires with neither the category path modified nor a new
document, so category counts are untouched. -/
def updateStock (s : DecorState) (id : Nat) (stock : Nat) : DecorOpResult :=
  match findById s.decors id with
  | none => ⟨404, s⟩
  | some d =>
    ⟨200, ⟨updateById s.decors id (fun _ => updateStockDoc d stock),
           decorPostSave s.categories (updateStockDoc d stock) false false⟩⟩

/-! ## User controllers (src/controllers/userController.ts) -/

structure UserOpResult where
  status : Nat
  users : List (Nat × UserDoc)
deriving DecidableEq, Repr

/-- Body of the user update endpoint (the route schema restricts role to
user or admin). -/
structure UpdateUserBody where
  firstName : Option String
  lastName : Option String
  role : Option Role
  isActive : Option Bool
deriving Repr

/-- updateUser: set each provided field and save.  No super-admin guard. -/
def updateUser (users : List (Nat × UserDoc)) (id : Nat) (b : UpdateUserBody) :
    UserOpResult :=
  match findById users id with
  | none => ⟨404, users⟩
  | some u =>
    let u1 : UserDoc :=
      { u with
        firstName := b.firstName.getD u.firstName
        lastName := b.lastName.getD u.lastName
        role := b.role.getD u.role
        isActive := b.isActive.getD u.isActive }
    ⟨200, updateById users id (fun _ => u1)⟩

/-- deleteUser: 403 for a super admin, otherwise remove the document. -/
def deleteUser (users : List (Nat × UserDoc)) (id : Nat) : UserOpResult :=
  match findById users id with
  | none => ⟨404, users⟩
  | some u =>
    if u.role = Role.superAdmin then ⟨403, users⟩
    else ⟨200, deleteById users id⟩

/-- deactivateUser: 403 for a super admin, otherwise clear isActive. -/
def deactivateUser (users : List (Nat × UserDoc)) (id : Nat) : UserOpResult :=
  match findById users id with
  | none => ⟨404, users⟩
  | some u =>
    if u.role = Role.superAdmin then ⟨403, users⟩
    else ⟨200, updateById users id (fun v => { v with isActive := false })⟩

/-- demoteFromAdmin: 403 for a super admin, 400 for a plain user, otherwise
set the role to user. -/
def demoteFromAdmin (users : List (Nat × UserDoc)) (id : Nat) : UserOpResult :=
  match findById users id with
  | none => ⟨404, users⟩
  | some u =>
    if u.role = Role.superAdmin then ⟨403, users⟩
    else if u.role = Role.user then ⟨400, users⟩
    else ⟨200, updateById users id (fun v => { v with role := Role.user })⟩

/-! ## Tokens (src/utils/auth.ts, src/config, jsonwebtoken modelled symbolically)

A signed token is a record of its claim set, the secret it was signed with,
and its expiry timestamp (seconds).  jwt.verify succeeds exactly when the
supplied secret matches the signing secret and the current time is before
the expiry; jwt.verify with an undefined secret always throws. -/

structure TokenClaims where
  id : Nat
  email : String
  role : Role
deriving DecidableEq, Repr

structure Token where
  claims : TokenClaims
  secret : String
  exp : Nat
deriving DecidableEq, Repr

def signToken (c : TokenClaims) (secret : String) (now lifetime : Nat) : Token :=
  ⟨c, secret, now + lifetime⟩

def jwtVerify (t : Token) (secret : String) (now : Nat) : Option TokenClaims :=
  if t.secret = secret ∧ now < t.exp then some t.claims else none

/-- JavaScript s1 || s2 on strings: the empty string is falsy. -/
def jsOr (s dflt : String) : String :=
  if s = "" then dflt else s

/-- JavaScript (process.env.X || dflt): absent or empty gives the default. -/
def jsOrOpt (s : Option String) (dflt : String) : String :=
  match s with
  | none => dflt
  | some v => jsOr v dflt

/-- Expiry strings accepted by jsonwebtoken (the ms library) for the values
this codebase uses: a digit run followed by a unit, d for days, h for hours,
m for minutes, s or nothing for seconds.  Result in seconds. -/
def durationSeconds (s : String) : Nat :=
  let digits := s.data.takeWhile Char.isDigit
  let n := digits.foldl (fun a c => a * 10 + (c.toNat - 48)) 0
  let unit := s.data.dropWhile Char.isDigit
  if unit = ['d'] then n * 86400
  else if unit = ['h'] then n * 3600
  else if unit = ['m'] then n * 60
  else if unit = ['s'] ∨ unit = [] then n
  else 0

/-- Server configuration (src/config): JWT_SECRET and JWT_EXPIRE have
defaults, JWT_REFRESH_SECRET is read straight from the environment by the
refresh endpoint and has no default. -/
structure Env where
  jwtSecret : String
  jwtExpire : String
  jwtRefreshSecret : Option String
deriving Repr

/-- Config loading: JWT_SECRET defaults, JWT_EXPIRE defaults to 7d. -/
def mkConfig (envJwtSecret envJwtExpire envJwtRefreshSecret : Option String) : Env :=
  { jwtSecret := jsOrOpt envJwtSecret "your-super-secret-jwt-key"
    jwtExpire := jsOrOpt envJwtExpire "7d"
    jwtRefreshSecret := envJwtRefreshSecret }

/-- generateTokens (src/utils/auth.ts): both tokens are signed with
config.JWT_SECRET; the access token lifetime is config.JWT_EXPIRE falling
back to 24h, the refresh token lifetime is a fixed 7d. -/
def generateTokens (c : TokenClaims) (env : Env) (now : Nat) : Token × Token :=
  (signToken c env.jwtSecret now (durationSeconds (jsOr env.jwtExpire "24h")),
   signToken c env.jwtSecret now (durationSeconds "7d"))

/-- refreshToken endpoint (src/controllers/authController.ts): read the
cookie, verify it against process.env.JWT_REFRESH_SECRET (jwt.verify throws
when that secret is absent, caught as 401), load the user, reject absent or
inactive users with 401, then mint fresh tokens. -/
def refreshTokenEndpoint (cookie : Option Token) (env : Env)
    (users : List (Nat × UserDoc)) (now : Nat) : Nat × Option (Token × Token) :=
  match cookie with
  | none => (401, none)
  | some t =>
    match env.jwtRefreshSecret with
    | none => (401, none)
    | some rs =>
      match jwtVerify t rs now with
      | none => (401, none)
      | some decoded =>
        match findById users decoded.id with
        | none => (401, none)
        | some u =>
          if u.isActive then
            (200, some (generateTokens ⟨decoded.id, u.email, u.role⟩ env now))
          else (401, none)

/-! ## Authentication middleware and login (src/middlewares/auth.ts,
src/controllers/authController.ts) -/

inductive AuthOutcome where
  | reject (status : Nat)
  | proceed (id : Nat) (email : String) (role : Role)
deriving DecidableEq, Repr

/-- authenticate: extract the bearer token, falling back to the cookie;
missing token gives 401, failed verification gives 401, an absent or
inactive user gives 401; otherwise the request proceeds with the user
context attached (the downstream handler runs only in the proceed case). -/
def authenticate (bearer cookie : Option Token) (env : Env)
    (users : List (Nat × UserDoc)) (now : Nat) : AuthOutcome :=
  match bearer.orElse (fun _ => cookie) with
  | none => AuthOutcome.reject 401
  | some t =>
    match jwtVerify t env.jwtSecret now with
    | none => AuthOutcome.reject 401
    | some decoded =>
      match findById users decoded.id with
      | none => AuthOutcome.reject 401
      | some u =>
        if u.isActive then AuthOutcome.proceed decoded.id u.email u.role
        else AuthOutcome.reject 401

/-- login status flow: unknown email gives 401, a deactivated account gives
403 before the password is even checked, a wrong password gives 401,
otherwise 200.  bcrypt.compare is modelled as comparison with the stored
credential. -/
def login (users : List (Nat × UserDoc)) (email password : String) : Nat :=
  match (users.find? (fun p => p.2.email = email)).map (fun p => p.2) with
  | none => 401
  | some u =>
    if u.isActive = false then 403
    else if password = u.password then 200
    else 401

/-! ## Pagination (src/controllers/userController.ts getAllUsers,
src/utils getPagination, the GET /users route schema) -/

/-- parseInt(q) || dflt: a missing or non-numeric parameter and an explicit
0 both fall back to the default. -/
def parsedOr (q : Option Int) (dflt : Int) : Int :=
  match q with
  | none => dflt
  | some n => if n = 0 then dflt else n

/-- Math.ceil(total / limit) with JavaScript real division. -/
def jsCeilDiv (total : Nat) (limit : Int) : Int :=
  ⌈(total : ℚ) / (limit : ℚ)⌉

structure PaginationOut where
  currentPage : Int
  totalPages : Int
  hasNextPage : Bool
  hasPrevPage : Bool
  totalUsers : Nat
deriving DecidableEq, Repr

/-- Modelled from the spec: the validateQuery middleware (the file
src/middlewares/validation is not among the sources; only its Joi schemas
and call sites are) rejects a query violating its schema with HTTP 400
before the controller runs.  The GET /users schema, visible in
src/routes/userRoutes.ts, requires page to be an integer at least 1 and
limit to be an integer between 1 and 100. -/
def usersQueryOk (page limit : Option Int) : Bool :=
  (match page with | none => true | some p => decide (1 ≤ p)) &&
  (match limit with | none => true | some l => decide (1 ≤ l ∧ l ≤ 100))

/-- getAllUsers pagination pipeline: validation, then the controller parses
page (default 1) and limit (default 10), queries, and shapes the response
with totalPages = ceil(total / limit), hasNextPage = page < totalPages,
hasPrevPage = page > 1.  none models the 400 rejection where no query
runs. -/
def getAllUsersRun (page limit : Option Int) (total : Nat) :
    Option (Int × Int × PaginationOut) :=
  if usersQueryOk page limit then
    let p := parsedOr page 1
    let l := parsedOr limit 10
    let tp := jsCeilDiv total l
    some (p, l, ⟨p, tp, decide (p < tp), decide (1 < p), total⟩)
  else none

/-- getPagination helper (src/utils): clamps page to at least 1 and limit to
between 1 and 100; no list controller calls it. -/
def getPagination (page limit : Int) (total : Nat) :
    Int × Int × Int × Bool × Bool :=
  let currentPage := max 1 page
  let itemsPerPage := min (max 1 limit) 100
  let pages := jsCeilDiv total itemsPerPage
  (currentPage, itemsPerPage, pages,
   decide (currentPage < pages), decide (1 < currentPage))

/-! ## Sample documents used by concrete evaluations -/

def sampleDecor : DecorDoc :=
  { name := "Woven Wall Hanging"
    slug := "woven-wall-hanging"
    description := "Traditional weaving"
    category := 1
    price := 10
    originalPrice := some 20
    stock := 5
    status := DecorStatus.active
    featured := false
    images := ["img1"]
    tags := ["textile"]
    materials := ["wool"]
    ratingAverage := 0
    ratingCount := 0
    views := 0
    salesCount := 0
    createdBy := 3 }

def sampleDiscontinued : DecorDoc :=
  { sampleDecor with status := DecorStatus.discontinued }

def sampleCategory : CategoryDoc :=
  { name := "Wall Art"
    slug := "wall-art"
    description := "Wall decorations"
    isActive := true
    decorCount := 1
    createdBy := 3 }

def sampleSuperAdmin : UserDoc :=
  { firstName := "Root"
    lastName := "Admin"
    email := "root@craftopia.com"
    password := "hashed"
    role := Role.superAdmin
    isActive := true }

def sampleMember : UserDoc :=
  { firstName := "Jane"
    lastName := "Doe"
    email := "jane@craftopia.com"
    password := "hashed2"
    role := Role.user
    isActive := true }

/-! ## Supporting lemmas -/

theorem char_toNat_ofNat_of_valid (n : Nat) (h : n < 0xd800) :
    (Char.ofNat n).toNat = n := by
  have hv : n.isValidChar := Or.inl h
  simp only [Char.ofNat, hv, dif_pos]
  rfl

theorem char_isUpper_iff (c : Char) : c.isUpper = true ↔ 65 ≤ c.toNat ∧ c.toNat ≤ 90 := by
  simp only [Char.isUpper, Bool.and_eq_true, decide_eq_true_eq, ge_iff_le]
  exact Iff.rfl

theorem toLower_isUpper_eq_false (c : Char) : (Char.toLower c).isUpper = false := by
  show (let n := c.toNat; if n ≥ 65 ∧ n ≤ 90 then Char.ofNat (n + 32) else c).isUpper = false
  simp only []
  split
  · next h =>
    have h1 : (Char.ofNat (c.toNat + 32)).toNat = c.toNat + 32 :=
      char_toNat_ofNat_of_valid _ (by omega)
    rw [Bool.eq_false_iff]
    intro hu
    rw [char_isUpper_iff] at hu
    omega
  · next h =>
    rw [Bool.eq_false_iff]
    intro hu
    rw [char_isUpper_iff] at hu
    omega

theorem mem_collapseSeps {ch : Char} :
    ∀ {l : List Char}, ch ∈ collapseSeps l → ch = '-' ∨ (ch ∈ l ∧ isSepChar ch = false) := by
  intro l
  induction l using collapseSeps.induct with
  | case1 =>
    intro h
    simp [collapseSeps] at h
  | case2 c rest hsep ih =>
    intro h
    rw [collapseSeps, if_pos hsep] at h
    rcases List.mem_cons.mp h with h1 | h2
    · exact Or.inl h1
    · rcases ih h2 with h3 | ⟨h4, h5⟩
      · exact Or.inl h3
      · exact Or.inr ⟨List.mem_cons_of_mem _ ((List.dropWhile_suffix _).subset h4), h5⟩
  | case3 c rest hsep ih =>
    intro h
    rw [collapseSeps, if_neg hsep] at h
    rcases List.mem_cons.mp h with h1 | h2
    · subst h1
      exact Or.inr ⟨List.mem_cons_self _ _, by simpa using hsep⟩
    · rcases ih h2 with h3 | ⟨h4, h5⟩
      · exact Or.inl h3
      · exact Or.inr ⟨List.mem_cons_of_mem _ h4, h5⟩

theorem collapseSeps_head_not_sep {l : List Char} {ch : Char}
    (hl : ∀ x, l.head? = some x → isSepChar x = false)
    (h : (collapseSeps l).head? = some ch) : isSepChar ch = false := by
  cases l with
  | nil => simp [collapseSeps] at h
  | cons c rest =>
    have hc : isSepChar c = false := hl c rfl
    rw [collapseSeps, if_neg (by simp [hc])] at h
    simp at h
    exact h ▸ hc

theorem chain'_collapseSeps (l : List Char) :
    (collapseSeps l).Chain' (fun a b => ¬(a = '-' ∧ b = '-')) := by
  induction l using collapseSeps.induct with
  | case1 => simp [collapseSeps]
  | case2 c rest hsep ih =>
    rw [collapseSeps, if_pos hsep, List.chain'_cons']
    refine ⟨?_, ih⟩
    intro y hy
    have hns : isSepChar y = false :=
      collapseSeps_head_not_sep (fun x hx => by
        have hw := List.head?_dropWhile_not isSepChar rest
        rw [hx] at hw
        exact hw) hy
    intro hcon
    rw [hcon.2] at hns
    simp [isSepChar] at hns
  | case3 c rest hsep ih =>
    rw [collapseSeps, if_neg hsep, List.chain'_cons']
    refine ⟨?_, ih⟩
    intro y hy hcon
    rw [hcon.1] at hsep
    simp [isSepChar] at hsep

theorem trimHyphens_eq (l : List Char) :
    trimHyphens l = List.rdropWhile (fun c => c = '-') (l.dropWhile (fun c => c = '-')) :=
  rfl

theorem mem_trimHyphens {l : List Char} {ch : Char} (h : ch ∈ trimHyphens l) : ch ∈ l := by
  rw [trimHyphens_eq] at h
  have hpre := List.rdropWhile_prefix (fun c => (c = '-' : Bool)) (l.dropWhile (fun c => c = '-'))
  exact (List.dropWhile_suffix _).subset (hpre.subset h)

theorem trimHyphens_head {l : List Char} {ch : Char}
    (h : (trimHyphens l).head? = some ch) : ch ≠ '-' := by
  rw [trimHyphens_eq] at h
  have hne : List.rdropWhile (fun c => c = '-') (l.dropWhile (fun c => c = '-')) ≠ [] := by
    intro hnil
    rw [hnil] at h
    simp at h
  obtain ⟨t, ht⟩ :=
    List.rdropWhile_prefix (fun c => (c = '-' : Bool)) (l.dropWhile (fun c => c = '-'))
  have hh : (l.dropWhile (fun c => (c = '-' : Bool))).head? = some ch := by
    rw [← ht, List.head?_append_of_ne_nil _ hne, h]
  have hw := List.head?_dropWhile_not (fun c => (c = '-' : Bool)) l
  rw [hh] at hw
  simpa using hw

theorem trimHyphens_getLast {l : List Char} {ch : Char}
    (h : (trimHyphens l).getLast? = some ch) : ch ≠ '-' := by
  rw [trimHyphens_eq] at h
  have hne : List.rdropWhile (fun c => c = '-') (l.dropWhile (fun c => c = '-')) ≠ [] := by
    intro hnil
    rw [hnil] at h
    simp at h
  have hlast :=
    List.rdropWhile_last_not (fun c => (c = '-' : Bool)) (l.dropWhile (fun c => c = '-')) hne
  rw [List.getLast?_eq_getLast _ hne] at h
  intro hch
  apply hlast
  simp only [Option.some.injEq] at h
  rw [h, hch]
  simp

theorem chain'_trimHyphens {l : List Char} {R : Char → Char → Prop}
    (h : l.Chain' R) : (trimHyphens l).Chain' R := by
  rw [trimHyphens_eq]
  have hpre := List.rdropWhile_prefix (fun c : Char => (c = '-' : Bool)) (l.dropWhile (fun c => c = '-'))
  have hsuf := h.suffix (List.dropWhile_suffix (fun c : Char => (c = '-' : Bool)))
  exact List.Chain'.prefix hsuf hpre

theorem mem_jsTrim {l : List Char} {ch : Char} (h : ch ∈ jsTrim l) : ch ∈ l := by
  unfold jsTrim at h
  rw [List.mem_reverse] at h
  have h1 := (List.dropWhile_suffix Char.isWhitespace).subset h
  rw [List.mem_reverse] at h1
  exact (List.dropWhile_suffix Char.isWhitespace).subset h1

theorem generateSlug_chars {s : String} {ch : Char} (h : ch ∈ (generateSlug s).data) :
    ch.isLower = true ∨ ch.isDigit = true ∨ ch = '-' := by
  have hmem : ch ∈ trimHyphens (collapseSeps (removeSpecial (jsTrim (s.data.map Char.toLower)))) := h
  rcases mem_collapseSeps (mem_trimHyphens hmem) with hc | ⟨hin, hns⟩
  · exact Or.inr (Or.inr hc)
  · have hkeep := List.of_mem_filter hin
    have hin2 : ch ∈ jsTrim (s.data.map Char.toLower) := List.mem_of_mem_filter hin
    have hin3 : ch ∈ s.data.map Char.toLower := mem_jsTrim hin2
    simp only [Bool.or_eq_true] at hkeep
    have hns2 : (ch.isWhitespace = false ∧ ch ≠ '_') ∧ ch ≠ '-' := by
      simpa [isSepChar, not_or] using hns
    obtain ⟨⟨hnw, hnu⟩, hnh⟩ := hns2
    rcases hkeep with (hw | hw) | hw
    · simp only [isWordChar, Bool.or_eq_true] at hw
      rcases hw with (ha | hd) | hu
      · left
        obtain ⟨x, _, hx⟩ := List.mem_map.mp hin3
        have hup : ch.isUpper = false := hx ▸ toLower_isUpper_eq_false x
        simp only [Char.isAlpha, Bool.or_eq_true, hup] at ha
        simpa using ha
      · exact Or.inr (Or.inl hd)
      · exact absurd (by simpa using hu) hnu
    · exact absurd hw (by simp [hnw])
    · exact absurd (by simpa using hw) hnh

theorem findById_cons {α : Type} (k : Nat) (a : α) (t : List (Nat × α)) (id : Nat) :
    findById ((k, a) :: t) id = if k = id then some a else findById t id := by
  simp only [findById, List.find?_cons]
  by_cases h : k = id
  · simp [h]
  · simp [h]

theorem findById_updateById_self {α : Type} (l : List (Nat × α)) (id : Nat) (f : α → α) :
    findById (updateById l id f) id = (findById l id).map f := by
  induction l with
  | nil => rfl
  | cons p t ih =>
    obtain ⟨k, a⟩ := p
    by_cases h : k = id
    · simp [updateById, findById_cons, h, List.map_cons]
    · simp only [updateById, List.map_cons, if_neg h]
      rw [findById_cons, findById_cons, if_neg h, if_neg h]
      simpa [updateById] using ih

theorem findById_updateById_ne {α : Type} (l : List (Nat × α)) (id j : Nat) (f : α → α)
    (h : j ≠ id) : findById (updateById l id f) j = findById l j := by
  induction l with
  | nil => rfl
  | cons p t ih =>
    obtain ⟨k, a⟩ := p
    by_cases hk : k = id
    · subst hk
      simp only [updateById, List.map_cons, if_pos rfl]
      rw [findById_cons, findById_cons, if_neg (fun hh => h hh.symm),
        if_neg (fun hh => h hh.symm)]
      simpa [updateById] using ih
    · simp only [updateById, List.map_cons, if_neg hk]
      rw [findById_cons, findById_cons]
      by_cases hkj : k = j
      · simp [hkj]
      · rw [if_neg hkj, if_neg hkj]
        simpa [updateById] using ih

theorem slugStep_frame (d : DecorDoc) (m : Bool) :
    (slugStep d m).name = d.name ∧
    (slugStep d m).description = d.description ∧
    (slugStep d m).category = d.category ∧
    (slugStep d m).price = d.price ∧
    (slugStep d m).originalPrice = d.originalPrice ∧
    (slugStep d m).stock = d.stock ∧
    (slugStep d m).status = d.status ∧
    (slugStep d m).featured = d.featured ∧
    (slugStep d m).images = d.images ∧
    (slugStep d m).tags = d.tags ∧
    (slugStep d m).materials = d.materials ∧
    (slugStep d m).ratingAverage = d.ratingAverage ∧
    (slugStep d m).ratingCount = d.ratingCount ∧
    (slugStep d m).views = d.views ∧
    (slugStep d m).salesCount = d.salesCount ∧
    (slugStep d m).createdBy = d.createdBy := by
  and_intros <;> (unfold slugStep; (repeat' split) <;> rfl)

theorem stockStatusStep_frame (d : DecorDoc) (m : Bool) :
    (stockStatusStep d m).name = d.name ∧
    (stockStatusStep d m).slug = d.slug ∧
    (stockStatusStep d m).description = d.description ∧
    (stockStatusStep d m).category = d.category ∧
    (stockStatusStep d m).price = d.price ∧
    (stockStatusStep d m).originalPrice = d.originalPrice ∧
    (stockStatusStep d m).stock = d.stock ∧
    (stockStatusStep d m).featured = d.featured ∧
    (stockStatusStep d m).images = d.images ∧
    (stockStatusStep d m).tags = d.tags ∧
    (stockStatusStep d m).materials = d.materials ∧
    (stockStatusStep d m).ratingAverage = d.ratingAverage ∧
    (stockStatusStep d m).ratingCount = d.ratingCount ∧
    (stockStatusStep d m).views = d.views ∧
    (stockStatusStep d m).salesCount = d.salesCount ∧
    (stockStatusStep d m).createdBy = d.createdBy := by
  and_intros <;> (unfold stockStatusStep; (repeat' split) <;> rfl)

theorem origPriceStep_frame (d : DecorDoc) :
    (origPriceStep d).name = d.name ∧
    (origPriceStep d).slug = d.slug ∧
    (origPriceStep d).description = d.description ∧
    (origPriceStep d).category = d.category ∧
    (origPriceStep d).price = d.price ∧
    (origPriceStep d).stock = d.stock ∧
    (origPriceStep d).status = d.status ∧
    (origPriceStep d).featured = d.featured ∧
    (origPriceStep d).images = d.images ∧
    (origPriceStep d).tags = d.tags ∧
    (origPriceStep d).materials = d.materials ∧
    (origPriceStep d).ratingAverage = d.ratingAverage ∧
    (origPriceStep d).ratingCount = d.ratingCount ∧
    (origPriceStep d).views = d.views ∧
    (origPriceStep d).salesCount = d.salesCount ∧
    (origPriceStep d).createdBy = d.createdBy := by
  and_intros <;> (unfold origPriceStep; (repeat' split) <;> rfl)

/-- Status produced by the stock block of the pre-save hook. -/
theorem stockStatusStep_status (d : DecorDoc) :
    (stockStatusStep d true).status =
      if d.stock = 0 ∧ d.status ≠ DecorStatus.discontinued then DecorStatus.outOfStock
      else if 0 < d.stock ∧ d.status = DecorStatus.outOfStock then DecorStatus.active
      else d.status := by
  unfold stockStatusStep
  (repeat' split) <;> first | rfl | simp_all

/-- The originalPrice clearing rule, case by case. -/
theorem origPriceStep_originalPrice (d : DecorDoc) (op : ℚ)
    (h : d.originalPrice = some op) :
    (origPriceStep d).originalPrice =
      if op ≠ 0 ∧ op ≤ d.price then none else some op := by
  unfold origPriceStep
  rw [h]
  dsimp only
  split
  · simp
  · simpa using h

theorem origPriceStep_of_gt (d : DecorDoc) (op : ℚ)
    (h : d.originalPrice = some op) (hgt : d.price < op) :
    (origPriceStep d).originalPrice = some op := by
  rw [origPriceStep_originalPrice d op h, if_neg]
  intro hcon
  exact absurd hcon.2 (not_le.mpr hgt)

theorem origPriceStep_status (d : DecorDoc) : (origPriceStep d).status = d.status := by
  unfold origPriceStep
  (repeat' split) <;> rfl

theorem origPriceStep_stock (d : DecorDoc) : (origPriceStep d).stock = d.stock := by
  unfold origPriceStep
  (repeat' split) <;> rfl

theorem slugStep_false (d : DecorDoc) : slugStep d false = d := rfl

/-- Stock projection of the stock block. -/
theorem stockStatusStep_stock (d : DecorDoc) (m : Bool) :
    (stockStatusStep d m).stock = d.stock := by
  unfold stockStatusStep
  (repeat' split) <;> rfl

/-- Status produced by the patch-stock document transformation. -/
theorem updateStockDoc_status (d : DecorDoc) (stock : Nat) :
    (updateStockDoc d stock).status =
      if stock = 0 then DecorStatus.outOfStock
      else if d.status = DecorStatus.outOfStock then DecorStatus.active
      else d.status := by
  unfold updateStockDoc decorPreSave stockCtrlStep
  dsimp only
  rw [slugStep_false, origPriceStep_status, stockStatusStep_status]
  by_cases h0 : stock = 0 <;> by_cases hs : d.status = DecorStatus.outOfStock <;>
    simp [h0, hs]

theorem updateStockDoc_stock (d : DecorDoc) (stock : Nat) :
    (updateStockDoc d stock).stock = stock := by
  unfold updateStockDoc decorPreSave stockCtrlStep
  dsimp only
  rw [slugStep_false, origPriceStep_stock, stockStatusStep_stock]
  (repeat' split) <;> rfl

theorem stockCtrlStep_frame (d : DecorDoc) (stock : Nat) :
    (stockCtrlStep d stock).name = d.name ∧
    (stockCtrlStep d stock).slug = d.slug ∧
    (stockCtrlStep d stock).description = d.description ∧
    (stockCtrlStep d stock).category = d.category ∧
    (stockCtrlStep d stock).price = d.price ∧
    (stockCtrlStep d stock).originalPrice = d.originalPrice ∧
    (stockCtrlStep d stock).featured = d.featured ∧
    (stockCtrlStep d stock).images = d.images ∧
    (stockCtrlStep d stock).tags = d.tags ∧
    (stockCtrlStep d stock).materials = d.materials ∧
    (stockCtrlStep d stock).ratingAverage = d.ratingAverage ∧
    (stockCtrlStep d stock).ratingCount = d.ratingCount ∧
    (stockCtrlStep d stock).views = d.views ∧
    (stockCtrlStep d stock).salesCount = d.salesCount ∧
    (stockCtrlStep d stock).createdBy = d.createdBy := by
  and_intros <;> (unfold stockCtrlStep; dsimp only; (repeat' split) <;> rfl)

/-- Fields of the patch-stock transformation other than stock, status and
originalPrice are untouched. -/
theorem updateStockDoc_frame (d : DecorDoc) (stock : Nat) :
    (updateStockDoc d stock).name = d.name ∧
    (updateStockDoc d stock).slug = d.slug ∧
    (updateStockDoc d stock).description = d.description ∧
    (updateStockDoc d stock).category = d.category ∧
    (updateStockDoc d stock).price = d.price ∧
    (updateStockDoc d stock).featured = d.featured ∧
    (updateStockDoc d stock).images = d.images ∧
    (updateStockDoc d stock).tags = d.tags ∧
    (updateStockDoc d stock).materials = d.materials ∧
    (updateStockDoc d stock).ratingAverage = d.ratingAverage ∧
    (updateStockDoc d stock).ratingCount = d.ratingCount ∧
    (updateStockDoc d stock).views = d.views ∧
    (updateStockDoc d stock).salesCount = d.salesCount ∧
    (updateStockDoc d stock).createdBy = d.createdBy := by
  unfold updateStockDoc decorPreSave
  rw [slugStep_false]
  obtain ⟨o1, o2, o3, o4, o5, o6, o7, o8, o9, o10, o11, o12, o13, o14, o15, o16⟩ :=
    origPriceStep_frame (stockStatusStep (stockCtrlStep d stock) true)
  obtain ⟨s1, s2, s3, s4, s5, s6, s7, s8, s9, s10, s11, s12, s13, s14, s15, s16⟩ :=
    stockStatusStep_frame (stockCtrlStep d stock) true
  obtain ⟨c1, c2, c3, c4, c5, c6, c7, c8, c9, c10, c11, c12, c13, c14, c15⟩ :=
    stockCtrlStep_frame d stock
  exact ⟨o1.trans (s1.trans c1), o2.trans (s2.trans c2), o3.trans (s3.trans c3),
    o4.trans (s4.trans c4), o5.trans (s5.trans c5),
    o8.trans (s8.trans c7), o9.trans (s9.trans c8), o10.trans (s10.trans c9),
    o11.trans (s11.trans c10), o12.trans (s12.trans c11), o13.trans (s13.trans c12),
    o14.trans (s14.trans c13), o15.trans (s15.trans c14), o16.trans (s16.trans c15)⟩

theorem origPriceStep_none (d : DecorDoc) (h : d.originalPrice = none) :
    (origPriceStep d).originalPrice = none := by
  unfold origPriceStep
  rw [h]
  exact h

theorem stockCtrlStep_originalPrice (d : DecorDoc) (stock : Nat) :
    (stockCtrlStep d stock).originalPrice = d.originalPrice := by
  unfold stockCtrlStep
  dsimp only
  (repeat' split) <;> rfl

theorem stockCtrlStep_price (d : DecorDoc) (stock : Nat) :
    (stockCtrlStep d stock).price = d.price := by
  unfold stockCtrlStep
  dsimp only
  (repeat' split) <;> rfl

/-- Under the stored invariant that a present originalPrice strictly exceeds
the price, the patch-stock save does not clear originalPrice. -/
theorem updateStockDoc_originalPrice (d : DecorDoc) (stock : Nat)
    (hop : ∀ op, d.originalPrice = some op → d.price < op) :
    (updateStockDoc d stock).originalPrice = d.originalPrice := by
  unfold updateStockDoc decorPreSave
  rw [slugStep_false]
  have hX : (stockStatusStep (stockCtrlStep d stock) true).originalPrice = d.originalPrice := by
    rw [(stockStatusStep_frame _ _).2.2.2.2.2.1, stockCtrlStep_originalPrice]
  have hP : (stockStatusStep (stockCtrlStep d stock) true).price = d.price := by
    rw [(stockStatusStep_frame _ _).2.2.2.2.1, stockCtrlStep_price]
  rcases hcase : d.originalPrice with _ | op
  · exact origPriceStep_none _ (hX.trans hcase)
  · exact origPriceStep_of_gt _ op (hX.trans hcase) (by rw [hP]; exact hop op hcase)

/-- Successful patch-stock request: the stored decor is the transformed
document, the categories are untouched, and the response is 200. -/
theorem updateStock_found (s : DecorState) (id stock : Nat) (d : DecorDoc)
    (hd : findById s.decors id = some d) :
    updateStock s id stock =
      ⟨200, ⟨updateById s.decors id (fun _ => updateStockDoc d stock), s.categories⟩⟩ := by
  unfold updateStock
  rw [hd]
  rfl

theorem updateStock_found_decor (s : DecorState) (id stock : Nat) (d : DecorDoc)
    (hd : findById s.decors id = some d) :
    findById (updateStock s id stock).state.decors id = some (updateStockDoc d stock) := by
  rw [updateStock_found s id stock d hd]
  dsimp only
  rw [findById_updateById_self, hd]
  rfl

theorem decorPreSave_category (d : DecorDoc) (m1 m2 : Bool) :
    (decorPreSave d m1 m2).category = d.category := by
  unfold decorPreSave
  rw [(origPriceStep_frame _).2.2.2.1, (stockStatusStep_frame _ _).2.2.2.1,
    (slugStep_frame _ _).2.2.1]

/-! ## Claim theorems -/

/-- C1 counterexample: the patch-stock endpoint applied to a discontinued
decor with new stock 0 succeeds (200) and stores status out_of_stock, not
discontinued: updateStock overwrites the status before the hook runs, and
the hook then sees a non-discontinued status. -/
theorem C1_counterexample :
    sampleDiscontinued.status = DecorStatus.discontinued ∧
    (updateStock ⟨[(7, sampleDiscontinued)], []⟩ 7 0).status = 200 ∧
    (findById (updateStock ⟨[(7, sampleDiscontinued)], []⟩ 7 0).state.decors 7).map
      (fun d => d.status) = some DecorStatus.outOfStock := by
  refine ⟨rfl, rfl, ?_⟩
  decide

/-- C1 (amended): under a plain save with the stock path modified, setting
stock to 0 moves the status to out_of_stock unless it is discontinued, and a
discontinued status survives; raising stock above 0 from out_of_stock moves
the status to active both under a plain save and under patch-stock, and
patch-stock keeps a discontinued status when the new stock is positive; but
the patch-stock operation forces out_of_stock whenever the new stock is 0,
regardless of the current status, discontinued included. -/
theorem C1_stock_status (s : DecorState) (id : Nat) (d : DecorDoc) (n : Nat)
    (hd : findById s.decors id = some d) :
    ((decorPreSave { d with stock := 0 } false true).status =
      if d.status = DecorStatus.discontinued then DecorStatus.discontinued
      else DecorStatus.outOfStock) ∧
    (0 < n → d.status = DecorStatus.outOfStock →
      (decorPreSave { d with stock := n } false true).status = DecorStatus.active) ∧
    (∃ d0, findById (updateStock s id 0).state.decors id = some d0 ∧
      d0.stock = 0 ∧ d0.status = DecorStatus.outOfStock) ∧
    (0 < n → d.status = DecorStatus.outOfStock →
      ∃ d1, findById (updateStock s id n).state.decors id = some d1 ∧
        d1.stock = n ∧ d1.status = DecorStatus.active) ∧
    (0 < n → d.status = DecorStatus.discontinued →
      ∃ d2, findById (updateStock s id n).state.decors id = some d2 ∧
        d2.status = DecorStatus.discontinued) := by
  refine ⟨?_, ?_, ?_, ?_, ?_⟩
  · unfold decorPreSave
    rw [slugStep_false, origPriceStep_status, stockStatusStep_status]
    by_cases hdisc : d.status = DecorStatus.discontinued
    · simp [hdisc]
    · simp [hdisc]
  · intro hn hs
    unfold decorPreSave
    rw [slugStep_false, origPriceStep_status, stockStatusStep_status]
    simp [hs, Nat.pos_iff_ne_zero.mp hn, hn]
  · refine ⟨updateStockDoc d 0, updateStock_found_decor s id 0 d hd, ?_, ?_⟩
    · exact updateStockDoc_stock d 0
    · rw [updateStockDoc_status]
      simp
  · intro hn hs
    refine ⟨updateStockDoc d n, updateStock_found_decor s id n d hd, ?_, ?_⟩
    · exact updateStockDoc_stock d n
    · rw [updateStockDoc_status]
      simp [Nat.pos_iff_ne_zero.mp hn, hs]
  · intro hn hs
    refine ⟨updateStockDoc d n, updateStock_found_decor s id n d hd, ?_⟩
    rw [updateStockDoc_status]
    rw [if_neg (Nat.pos_iff_ne_zero.mp hn), if_neg (by rw [hs]; intro hcon; cases hcon)]
    exact hs

/-- C1 witness: the amended statement applied to a one-decor store holding
an out_of_stock decor, patched to stock 3: the stored decor becomes active
with stock 3. -/
theorem C1_witness :
    findById (DecorState.mk
        [(7, { sampleDecor with status := DecorStatus.outOfStock })] []).decors 7 =
      some { sampleDecor with status := DecorStatus.outOfStock } ∧
    (∃ d1, findById (updateStock (DecorState.mk
        [(7, { sampleDecor with status := DecorStatus.outOfStock })] []) 7 3).state.decors 7 =
          some d1 ∧ d1.stock = 3 ∧ d1.status = DecorStatus.active) :=
  ⟨by decide,
   (C1_stock_status (DecorState.mk
       [(7, { sampleDecor with status := DecorStatus.outOfStock })] []) 7
       { sampleDecor with status := DecorStatus.outOfStock } 3
       (by decide)).2.2.2.1 (by decide) (by decide)⟩

/-- C6 counterexample: an originalPrice of 0 is lower than the price 5, yet
the pre-save hook keeps it, because 0 is falsy in the guarding condition. -/
theorem C6_counterexample :
    ({ sampleDecor with originalPrice := some 0, price := 5 } : DecorDoc).originalPrice =
      some 0 ∧
    (0 : ℚ) ≤ ({ sampleDecor with originalPrice := some 0, price := 5 } : DecorDoc).price ∧
    (decorPreSave { sampleDecor with originalPrice := some 0, price := 5 }
      false false).originalPrice = some 0 := by
  refine ⟨rfl, by decide, by decide⟩

/-- C6 (amended): on save, a nonzero originalPrice that is at most the price
is cleared; an originalPrice strictly above the price is preserved; an
originalPrice equal to 0 is kept as is, being falsy. -/
theorem C6_original_price (d : DecorDoc) (op : ℚ) (m1 m2 : Bool)
    (h : d.originalPrice = some op) :
    (op ≠ 0 → op ≤ d.price → (decorPreSave d m1 m2).originalPrice = none) ∧
    (d.price < op → (decorPreSave d m1 m2).originalPrice = some op) ∧
    (op = 0 → (decorPreSave d m1 m2).originalPrice = some 0) := by
  unfold decorPreSave
  have hX : (stockStatusStep (slugStep d m1) m2).originalPrice = some op := by
    rw [(stockStatusStep_frame _ _).2.2.2.2.2.1, (slugStep_frame _ _).2.2.2.2.1, h]
  have hP : (stockStatusStep (slugStep d m1) m2).price = d.price := by
    rw [(stockStatusStep_frame _ _).2.2.2.2.1, (slugStep_frame _ _).2.2.2.1]
  refine ⟨?_, ?_, ?_⟩
  · intro h1 h2
    rw [origPriceStep_originalPrice _ op hX, if_pos ⟨h1, by rw [hP]; exact h2⟩]
  · intro h1
    exact origPriceStep_of_gt _ op hX (by rw [hP]; exact h1)
  · intro h0
    rw [origPriceStep_originalPrice _ op hX, if_neg (by rw [h0]; simp), h0]

/-- C6 witness: a decor with originalPrice 8 and price 10 has its
originalPrice cleared by the hook. -/
theorem C6_witness :
    ({ sampleDecor with originalPrice := some 8, price := 10 } : DecorDoc).originalPrice =
      some 8 ∧
    (decorPreSave { sampleDecor with originalPrice := some 8, price := 10 }
      false false).originalPrice = none :=
  ⟨rfl,
   (C6_original_price { sampleDecor with originalPrice := some 8, price := 10 } 8
     false false rfl).1 (by decide) (by decide)⟩

/-- C7 counterexample: with no expiry configured in the environment, the
access token issued at time 0 expires at 604800 seconds (7 days), not at
86400 seconds (24 hours). -/
theorem C7_counterexample :
    (generateTokens ⟨1, "a@b.c", Role.user⟩ (mkConfig none none none) 0).1.exp = 604800 ∧
    (604800 : Nat) ≠ 86400 ∧
    durationSeconds "24h" = 86400 := by
  refine ⟨by decide, by decide, by decide⟩

/-- C7 (amended): when no token-expiry value is configured in the
environment, config.JWT_EXPIRE defaults to 7d, so the 24h fallback inside
generateTokens is unreachable and every access token expires 7 days
(604800 seconds) after issuance. -/
theorem C7_default_access_expiry (sec rs : Option String) (c : TokenClaims) (now : Nat) :
    (mkConfig sec none rs).jwtExpire = "7d" ∧
    (generateTokens c (mkConfig sec none rs) now).1.exp = now + 604800 ∧
    durationSeconds "7d" = 7 * 86400 := by
  refine ⟨rfl, ?_, by decide⟩
  show now + durationSeconds (jsOr (jsOrOpt none "7d") "24h") = now + 604800
  have h7 : durationSeconds (jsOr (jsOrOpt none "7d") "24h") = 604800 := by decide
  rw [h7]

/-- C4 counterexample: the generic update endpoint carries no super-admin
guard: a body demoting and deactivating a super admin (with role user, which
the route schema allows) succeeds with 200 and the stored document changes. -/
theorem C4_counterexample :
    sampleSuperAdmin.role = Role.superAdmin ∧
    (UpdateUserBody.mk none none (some Role.user) (some false)).role ≠ some Role.superAdmin ∧
    (updateUser [(1, sampleSuperAdmin)] 1
      (UpdateUserBody.mk none none (some Role.user) (some false))).status = 200 ∧
    findById (updateUser [(1, sampleSuperAdmin)] 1
      (UpdateUserBody.mk none none (some Role.user) (some false))).users 1 =
      some { sampleSuperAdmin with role := Role.user, isActive := false } := by
  refine ⟨rfl, by decide, rfl, by decide⟩

/-- C4 (amended): the dedicated delete, deactivate and demote endpoints
return 403 on a super admin and leave the user collection unchanged; the
generic update endpoint carries no such guard. -/
theorem C4_super_admin_guards (users : List (Nat × UserDoc)) (id : Nat) (u : UserDoc)
    (hu : findById users id = some u) (hr : u.role = Role.superAdmin) :
    deleteUser users id = ⟨403, users⟩ ∧
    deactivateUser users id = ⟨403, users⟩ ∧
    demoteFromAdmin users id = ⟨403, users⟩ := by
  refine ⟨?_, ?_, ?_⟩
  · unfold deleteUser
    rw [hu]
    simp [hr]
  · unfold deactivateUser
    rw [hu]
    simp [hr]
  · unfold demoteFromAdmin
    rw [hu]
    simp [hr]

/-- C4 witness: the guards evaluated on a store holding the super admin. -/
theorem C4_witness :
    findById [(1, sampleSuperAdmin)] 1 = some sampleSuperAdmin ∧
    deleteUser [(1, sampleSuperAdmin)] 1 = ⟨403, [(1, sampleSuperAdmin)]⟩ :=
  ⟨by decide,
   (C4_super_admin_guards [(1, sampleSuperAdmin)] 1 sampleSuperAdmin (by decide) rfl).1⟩

/-- C2: no decor operation maintains the denormalized category count.  The
increment hook tests isModified("category") and isNew, but Mongoose resets
the modified paths and clears isNew before post save middleware runs, so
creating a decor (201) and re-categorizing a decor (200) leave every
category count unchanged; deleting a decor (200) leaves the counts
unchanged as well, because the decrement hook is registered for
document-level deleteOne only while the endpoint removes through
findByIdAndDelete, a query operation.  Evaluated at the failing input: a
store with category 1 at count 1 holding decor 10 and category 2 at count
0; create into category 1, re-categorize decor 10 to category 2, and delete
decor 10 all succeed yet leave the counts at 1 and 0, where the claim
demands 2 after the create, 1 on category 2 after the re-categorize, and 0
after the delete. -/
theorem C2_category_counts :
    (∀ (s : DecorState) (newId : Nat) (b : CreateDecorBody),
      (createDecor s newId b).state.categories = s.categories) ∧
    (∀ (s : DecorState) (id newCat : Nat),
      (updateDecorCategory s id newCat).state.categories = s.categories) ∧
    (∀ (s : DecorState) (id : Nat),
      (deleteDecor s id).state.categories = s.categories) ∧
    ((createDecor (DecorState.mk [(10, sampleDecor)]
        [(1, sampleCategory), (2, { sampleCategory with decorCount := 0 })]) 99
        (CreateDecorBody.mk "New Vase" "Ceramic" 1 20 none 3 false [] [] ["clay"] 3)).status =
      201 ∧
     findById (createDecor (DecorState.mk [(10, sampleDecor)]
        [(1, sampleCategory), (2, { sampleCategory with decorCount := 0 })]) 99
        (CreateDecorBody.mk "New Vase" "Ceramic" 1 20 none 3 false [] [] ["clay"] 3)
        ).state.categories 1 = some sampleCategory ∧
     sampleCategory.decorCount = 1) ∧
    ((updateDecorCategory (DecorState.mk [(10, sampleDecor)]
        [(1, sampleCategory), (2, { sampleCategory with decorCount := 0 })]) 10 2).status =
      200 ∧
     findById (updateDecorCategory (DecorState.mk [(10, sampleDecor)]
        [(1, sampleCategory), (2, { sampleCategory with decorCount := 0 })]) 10 2
        ).state.categories 2 = some { sampleCategory with decorCount := 0 }) ∧
    ((deleteDecor (DecorState.mk [(10, sampleDecor)]
        [(1, sampleCategory), (2, { sampleCategory with decorCount := 0 })]) 10).status =
      200 ∧
     (deleteDecor (DecorState.mk [(10, sampleDecor)]
        [(1, sampleCategory), (2, { sampleCategory with decorCount := 0 })]) 10
       ).state.categories =
       [(1, sampleCategory), (2, { sampleCategory with decorCount := 0 })]) := by
  refine ⟨?_, ?_, ?_, ⟨by decide, by decide, rfl⟩, ⟨by decide, by decide⟩, ⟨by decide, by decide⟩⟩
  · intro s newId b
    unfold createDecor
    split <;> rfl
  · intro s id newCat
    unfold updateDecorCategory
    split
    · rfl
    · split <;> rfl
  · intro s id
    unfold deleteDecor
    split <;> rfl

/-- C5: on the users list endpoint (query schema visible in the route, the
validateQuery middleware modelled from the spec), whenever the query runs,
page is at least 1 defaulting to 1, the limit used never exceeds the
endpoint maximum of 100 and defaults to 10, and the response reports the
current page, total pages, the total count, and the next/prev flags computed
as page < totalPages and page > 1 with totalPages = ceil(total / limit);
on a 25-item collection, page 2 with limit 10 reports 3 pages and both
flags true. -/
theorem C5_pagination_contract (page limit : Option Int) (total : Nat)
    (p l : Int) (out : PaginationOut)
    (h : getAllUsersRun page limit total = some (p, l, out)) :
    (1 ≤ p ∧ (page = none → p = 1)) ∧
    (1 ≤ l ∧ l ≤ 100 ∧ (limit = none → l = 10)) ∧
    (out.currentPage = p ∧ out.totalPages = jsCeilDiv total l ∧
     out.totalUsers = total ∧
     out.hasNextPage = decide (p < out.totalPages) ∧
     out.hasPrevPage = decide (1 < p)) ∧
    getAllUsersRun (some 2) (some 10) 25 =
      some (2, 10, PaginationOut.mk 2 3 true true 25) := by
  have h25 : jsCeilDiv 25 10 = 3 := by
    unfold jsCeilDiv
    rw [Int.ceil_eq_iff]
    all_goals norm_num
  have hex : getAllUsersRun (some 2) (some 10) 25 =
      some (2, 10, PaginationOut.mk 2 3 true true 25) := by
    unfold getAllUsersRun
    rw [if_pos (by decide)]
    show some (2, 10, PaginationOut.mk 2 (jsCeilDiv 25 10)
      (decide ((2:Int) < jsCeilDiv 25 10)) (decide ((1:Int) < 2)) 25) = _
    rw [h25]
    rfl
  unfold getAllUsersRun at h
  split at h
  case isFalse => cases h
  case isTrue hok =>
    simp only [Option.some.injEq, Prod.mk.injEq] at h
    obtain ⟨hp, hl, hout⟩ := h
    subst hp
    subst hl
    subst hout
    unfold usersQueryOk at hok
    rw [Bool.and_eq_true] at hok
    obtain ⟨hokp, hokl⟩ := hok
    refine ⟨⟨?_, ?_⟩, ⟨?_, ?_, ?_⟩, ⟨rfl, rfl, rfl, rfl, rfl⟩, hex⟩
    · cases page with
      | none => decide
      | some p0 =>
        simp only [decide_eq_true_eq] at hokp
        show (1:Int) ≤ if p0 = 0 then 1 else p0
        split <;> omega
    · intro hnone
      subst hnone
      rfl
    · cases limit with
      | none => decide
      | some l0 =>
        simp only [decide_eq_true_eq] at hokl
        show (1:Int) ≤ if l0 = 0 then 10 else l0
        split <;> omega
    · cases limit with
      | none => decide
      | some l0 =>
        simp only [decide_eq_true_eq] at hokl
        show (if l0 = 0 then 10 else l0) ≤ (100:Int)
        split <;> omega
    · intro hnone
      subst hnone
      rfl

/-- C5 witness: the contract applied to the spec example, page 2 and limit
10 over 25 items. -/
theorem C5_witness :
    getAllUsersRun (some 2) (some 10) 25 =
      some (2, 10, PaginationOut.mk 2 (jsCeilDiv 25 10)
        (decide ((2:Int) < jsCeilDiv 25 10)) (decide ((1:Int) < 2)) 25) ∧
    ((1 ≤ (2:Int) ∧ (some (2:Int) = none → (2:Int) = 1)) ∧
     (1 ≤ (10:Int) ∧ (10:Int) ≤ 100 ∧ (some (10:Int) = none → (10:Int) = 10)) ∧
     ((PaginationOut.mk 2 (jsCeilDiv 25 10) (decide ((2:Int) < jsCeilDiv 25 10))
        (decide ((1:Int) < 2)) 25).currentPage = 2 ∧
      (PaginationOut.mk 2 (jsCeilDiv 25 10) (decide ((2:Int) < jsCeilDiv 25 10))
        (decide ((1:Int) < 2)) 25).totalPages = jsCeilDiv 25 10 ∧
      (PaginationOut.mk 2 (jsCeilDiv 25 10) (decide ((2:Int) < jsCeilDiv 25 10))
        (decide ((1:Int) < 2)) 25).totalUsers = 25 ∧
      (PaginationOut.mk 2 (jsCeilDiv 25 10) (decide ((2:Int) < jsCeilDiv 25 10))
        (decide ((1:Int) < 2)) 25).hasNextPage =
        decide ((2:Int) < (PaginationOut.mk 2 (jsCeilDiv 25 10)
          (decide ((2:Int) < jsCeilDiv 25 10)) (decide ((1:Int) < 2)) 25).totalPages) ∧
      (PaginationOut.mk 2 (jsCeilDiv 25 10) (decide ((2:Int) < jsCeilDiv 25 10))
        (decide ((1:Int) < 2)) 25).hasPrevPage = decide ((1:Int) < 2)) ∧
     getAllUsersRun (some 2) (some 10) 25 =
       some (2, 10, PaginationOut.mk 2 3 true true 25)) :=
  ⟨rfl, C5_pagination_contract (some 2) (some 10) 25 2 10 _ rfl⟩

/-- C3: the issuer signs the refresh token with config.JWT_SECRET, but the
refresh endpoint verifies it against process.env.JWT_REFRESH_SECRET, which
config never defines.  For an existing active user and an unexpired freshly
minted refresh token, the endpoint answers 401 both when JWT_REFRESH_SECRET
is unset and when it differs from JWT_SECRET; it would answer 200 only if
the two variables were set to the same value. -/
theorem C3_refresh_secret_mismatch :
    sampleMember.isActive = true ∧
    findById [(1, sampleMember)] 1 = some sampleMember ∧
    (1:Nat) < ((generateTokens (TokenClaims.mk 1 "jane@craftopia.com" Role.user)
      (mkConfig (some "server-secret") none none) 0).2).exp ∧
    refreshTokenEndpoint
      (some (generateTokens (TokenClaims.mk 1 "jane@craftopia.com" Role.user)
        (mkConfig (some "server-secret") none none) 0).2)
      (mkConfig (some "server-secret") none none) [(1, sampleMember)] 1 = (401, none) ∧
    refreshTokenEndpoint
      (some (generateTokens (TokenClaims.mk 1 "jane@craftopia.com" Role.user)
        (mkConfig (some "server-secret") none (some "refresh-secret")) 0).2)
      (mkConfig (some "server-secret") none (some "refresh-secret"))
      [(1, sampleMember)] 1 = (401, none) ∧
    (refreshTokenEndpoint
      (some (generateTokens (TokenClaims.mk 1 "jane@craftopia.com" Role.user)
        (mkConfig (some "server-secret") none (some "server-secret")) 0).2)
      (mkConfig (some "server-secret") none (some "server-secret"))
      [(1, sampleMember)] 1).1 = 200 := by
  refine ⟨rfl, by decide, by decide, by decide, by decide, by decide⟩

/-- C9: a token that verifies but references an absent or deactivated user
makes the mandatory authentication middleware reject with 401 (never
reaching the downstream handler), while login on a deactivated account with
matching credentials answers 403. -/
theorem C9_auth_inactive_401 (bearer cookie : Option Token) (env : Env)
    (users : List (Nat × UserDoc)) (now : Nat) (t : Token) (decoded : TokenClaims)
    (ht : bearer.orElse (fun _ => cookie) = some t)
    (hv : jwtVerify t env.jwtSecret now = some decoded)
    (hu : findById users decoded.id = none ∨
      ∃ u, findById users decoded.id = some u ∧ u.isActive = false) :
    authenticate bearer cookie env users now = AuthOutcome.reject 401 ∧
    (∀ i e r, authenticate bearer cookie env users now ≠ AuthOutcome.proceed i e r) ∧
    ((401:Nat) ≠ 403) ∧
    (∀ (users2 : List (Nat × UserDoc)) (email pw : String) (q : Nat × UserDoc),
      users2.find? (fun p => p.2.email = email) = some q → q.2.isActive = false →
      login users2 email pw = 403) := by
  have hA : authenticate bearer cookie env users now = AuthOutcome.reject 401 := by
    unfold authenticate
    rw [ht]
    dsimp only
    rw [hv]
    dsimp only
    rcases hu with hnone | ⟨u, hsome, hina⟩
    · rw [hnone]
    · rw [hsome]
      dsimp only
      simp [hina]
  refine ⟨hA, ?_, by decide, ?_⟩
  · intro i e r
    rw [hA]
    intro hcon
    cases hcon
  · intro users2 email pw q hq hina
    unfold login
    rw [hq, Option.map_some']
    dsimp only
    simp [hina]

/-- C9 witness: a fresh valid token whose user id 5 is absent from the
store is rejected with 401, and login on a deactivated account with the
stored credential answers 403. -/
theorem C9_witness :
    authenticate (some (signToken (TokenClaims.mk 5 "ghost@craftopia.com" Role.user)
      "server-secret" 0 100)) none (mkConfig (some "server-secret") none none) [] 1 =
      AuthOutcome.reject 401 ∧
    login [(2, { sampleMember with isActive := false })] "jane@craftopia.com" "hashed2" =
      403 :=
  ⟨(C9_auth_inactive_401 (some (signToken (TokenClaims.mk 5 "ghost@craftopia.com" Role.user)
      "server-secret" 0 100)) none (mkConfig (some "server-secret") none none) [] 1
      (signToken (TokenClaims.mk 5 "ghost@craftopia.com" Role.user) "server-secret" 0 100)
      (TokenClaims.mk 5 "ghost@craftopia.com" Role.user)
      rfl (by decide) (Or.inl rfl)).1,
   (C9_auth_inactive_401 (some (signToken (TokenClaims.mk 5 "ghost@craftopia.com" Role.user)
      "server-secret" 0 100)) none (mkConfig (some "server-secret") none none) [] 1
      (signToken (TokenClaims.mk 5 "ghost@craftopia.com" Role.user) "server-secret" 0 100)
      (TokenClaims.mk 5 "ghost@craftopia.com" Role.user)
      rfl (by decide) (Or.inl rfl)).2.2.2
     [(2, { sampleMember with isActive := false })] "jane@craftopia.com" "hashed2"
     (2, { sampleMember with isActive := false }) (by decide) rfl⟩

/-- C8: the category and decor pre-save hooks store generateSlug(name)
whenever the name path is modified, and for every input the produced slug
contains only lowercase letters, digits and hyphens, has no hyphen at either
end, and never contains two adjacent hyphens (each separator run collapses
to one hyphen). -/
theorem C8_slug_generation (c : CategoryDoc) (d : DecorDoc) (m2 : Bool) (s : String) :
    (categoryPreSave c true).slug = generateSlug c.name ∧
    (decorPreSave d true m2).slug = generateSlug d.name ∧
    (∀ ch ∈ (generateSlug s).data, ch.isLower = true ∨ ch.isDigit = true ∨ ch = '-') ∧
    (generateSlug s).data.head? ≠ some '-' ∧
    (generateSlug s).data.getLast? ≠ some '-' ∧
    (generateSlug s).data.Chain' (fun a b => ¬(a = '-' ∧ b = '-')) := by
  refine ⟨rfl, ?_, fun ch h => generateSlug_chars h, ?_, ?_, ?_⟩
  · unfold decorPreSave
    rw [(origPriceStep_frame _).2.1, (stockStatusStep_frame _ _).2.1]
    rfl
  · intro h
    exact trimHyphens_head h rfl
  · intro h
    exact trimHyphens_getLast h rfl
  · exact chain'_trimHyphens (chain'_collapseSeps _)

/-- C10: a successful patch-stock request changes only the stock and status
fields of the targeted decor, granted the stored invariant that a present
originalPrice strictly exceeds the price; every other decor, every category,
and every remaining field of the target are unchanged, and the response is
200. -/
theorem C10_updateStock_frame (s : DecorState) (id stock : Nat) (d : DecorDoc)
    (hd : findById s.decors id = some d)
    (hop : ∀ op, d.originalPrice = some op → d.price < op) :
    (updateStock s id stock).status = 200 ∧
    (updateStock s id stock).state.categories = s.categories ∧
    (∀ j, j ≠ id → findById (updateStock s id stock).state.decors j = findById s.decors j) ∧
    ∃ d1, findById (updateStock s id stock).state.decors id = some d1 ∧
      d1.stock = stock ∧
      d1.name = d.name ∧ d1.slug = d.slug ∧ d1.description = d.description ∧
      d1.category = d.category ∧ d1.price = d.price ∧
      d1.originalPrice = d.originalPrice ∧ d1.featured = d.featured ∧
      d1.images = d.images ∧ d1.tags = d.tags ∧ d1.materials = d.materials ∧
      d1.ratingAverage = d.ratingAverage ∧ d1.ratingCount = d.ratingCount ∧
      d1.views = d.views ∧ d1.salesCount = d.salesCount ∧ d1.createdBy = d.createdBy := by
  have he := updateStock_found s id stock d hd
  refine ⟨by rw [he], by rw [he], ?_, ?_⟩
  · intro j hj
    rw [he]
    dsimp only
    exact findById_updateById_ne _ _ _ _ hj
  · obtain ⟨f1, f2, f3, f4, f5, f6, f7, f8, f9, f10, f11, f12, f13, f14⟩ :=
      updateStockDoc_frame d stock
    exact ⟨updateStockDoc d stock, updateStock_found_decor s id stock d hd,
      updateStockDoc_stock d stock, f1, f2, f3, f4, f5,
      updateStockDoc_originalPrice d stock hop, f6, f7, f8, f9, f10, f11, f12, f13, f14⟩

/-- C10 witness: patch-stock with stock 4 on a store holding sampleDecor
(originalPrice 20 above price 10) answers 200 and keeps the categories. -/
theorem C10_witness :
    (updateStock (DecorState.mk [(7, sampleDecor)] [(1, sampleCategory)]) 7 4).status = 200 ∧
    (updateStock (DecorState.mk [(7, sampleDecor)] [(1, sampleCategory)]) 7 4
      ).state.categories = [(1, sampleCategory)] :=
  ⟨(C10_updateStock_frame (DecorState.mk [(7, sampleDecor)] [(1, sampleCategory)]) 7 4
      sampleDecor (by decide)
      (fun op h => by
        rw [show sampleDecor.originalPrice = some 20 from rfl] at h
        obtain rfl := (Option.some.inj h).symm
        decide)).1,
   (C10_updateStock_frame (DecorState.mk [(7, sampleDecor)] [(1, sampleCategory)]) 7 4
      sampleDecor (by decide)
      (fun op h => by
        rw [show sampleDecor.originalPrice = some 20 from rfl] at h
        obtain rfl := (Option.some.inj h).symm
        decide)).2.1⟩

end Craftopia
